import Mathlib

/-!
Verification of the accessibility rule engine: shallow embedding of the
finding data model (`rules/base.py`), the color mathematics
(`utils/color_utils.py`), the three shipped rules, and the orchestrator
(`core/analyzer.py`), together with theorems settling the frozen claims.

Python floats are modelled as exact rationals (`ℚ`) where the code only
adds, multiplies and divides decimal literals, and as reals (`ℝ`) where the
WCAG gamma correction raises to the fractional power 2.4.  Python's `round`
is modelled as exact round-half-to-even on the rational value
(CPython rounds the nearest-double representation, which can differ from
the exact value only on decimal ties that are not binary-representable).
The channel-darkening arithmetic of `suggest_darker_color`, whose truncation
is sensitive to the last bit of the double product, is modelled bit-exactly:
`rnd53Frac` rounds an exact fraction to the nearest binary64 value (53-bit
significand, ties to even), and `darkenChannel` chains it through
`factor * 0.05`, `1 - t` and `c * t` exactly as CPython's doubles do.
-/

/-- `Severity` enum of `rules/base.py`. -/
inductive Severity where
  | critical
  | high
  | medium
  | low
  | info
deriving DecidableEq

/-- `ActionType` enum of `rules/base.py`. -/
inductive ActionType where
  | auto_fix
  | suggest
  | manual
deriving DecidableEq

/-- The `Finding` dataclass of `rules/base.py`, projected to the fields the
claims inspect.  The free-text fields (`title`, `description`,
`suggested_fix`) and the diagnostic metadata entries other than
`is_large_text` are not modelled: no claim concerns them.
`meta_is_large_text` is the value the contrast rule stores under the
metadata key `"is_large_text"` (`none` for rules that do not set it; the
Python value is truthy exactly when the Bool here is `true`). -/
structure Finding where
  rule_id : String
  slide_number : Nat
  shape_id : Option String
  severity : Severity
  action_type : ActionType
  meta_is_large_text : Option Bool
deriving DecidableEq

/-- Python's `round` to an integer: round half to even, on the exact
rational value. -/
def roundHalfEven (q : ℚ) : ℤ :=
  let f := ⌊q⌋
  let r := q - f
  if r < 1/2 then f
  else if 1/2 < r then f + 1
  else if f % 2 = 0 then f else f + 1

/-- Python's `round(x, 1)`. -/
def pyRound1 (q : ℚ) : ℚ := (roundHalfEven (q * 10) : ℚ) / 10

/-- Python's `round(x, 2)`. -/
def pyRound2 (q : ℚ) : ℚ := (roundHalfEven (q * 100) : ℚ) / 100

/-- The `severity_weights` dict inside `BaseRule.calculate_score`
(`rules/base.py` lines 131-137): CRITICAL 10, HIGH 5, MEDIUM 2, LOW 1,
INFO 0. -/
def severity_weight_base : Severity → ℕ
  | .critical => 10
  | .high => 5
  | .medium => 2
  | .low => 1
  | .info => 0

/-- `BaseRule.calculate_score` (`rules/base.py` lines 118-145):
100.0 on an empty list, otherwise
`round(max(0.0, 100.0 - total_weight / 100 * 100), 1)`. -/
def calculate_score (findings : List Finding) : ℚ :=
  if findings = [] then 100
  else
    let total_weight : ℕ := (findings.map (fun f => severity_weight_base f.severity)).sum
    pyRound1 (max 0 (100 - ((total_weight : ℚ) / 100 * 100)))

/-- `roundHalfEven` is the identity on integers. -/
theorem roundHalfEven_intCast (m : ℤ) : roundHalfEven (m : ℚ) = m := by
  unfold roundHalfEven
  simp only [Int.floor_intCast, sub_self]
  norm_num

/-- `pyRound1` is the identity on integers. -/
theorem pyRound1_intCast (m : ℤ) : pyRound1 (m : ℚ) = m := by
  unfold pyRound1
  have h : (m : ℚ) * 10 = ((m * 10 : ℤ) : ℚ) := by push_cast; ring
  rw [h, roundHalfEven_intCast]
  push_cast
  ring

/-- The value of a single ASCII hexadecimal digit character (`0`-`9`,
`a`-`f`, `A`-`F`, compared by code point).  This under-approximates what
CPython's `int(s, 16)` accepts inside a slice: `int` also tolerates
surrounding whitespace, a leading sign and non-ASCII decimal digits, so
for example `" A"` and `"+A"` parse in Python but not here (and `"-A"`
would give a negative channel).  The embedding is therefore sound for
acceptance-side statements — every slice it accepts, CPython accepts with
the same value — and coincides with CPython exactly on the 6-hex-digit
color strings the contrast claims range over; it is NOT used to
characterize the exact failure set. -/
def hexVal? (c : Char) : Option Nat :=
  let n := c.toNat
  if 48 ≤ n ∧ n ≤ 57 then some (n - 48)
  else if 97 ≤ n ∧ n ≤ 102 then some (n - 97 + 10)
  else if 65 ≤ n ∧ n ≤ 70 then some (n - 65 + 10)
  else none

/-- Accumulating base-16 parse of a digit list; `none` on a non-digit. -/
def parseHexAux : List Char → Nat → Option Nat
  | [], acc => some acc
  | c :: cs, acc =>
    match hexVal? c with
    | none => none
    | some v => parseHexAux cs (16 * acc + v)

/-- Python's `int(s, 16)` on a (restricted, see `hexVal?`) string slice:
raises (`none`) on the empty string. -/
def parseHexNonempty : List Char → Option Nat
  | [] => none
  | c :: cs => parseHexAux (c :: cs) 0

/-- The slicing core of `hex_to_rgb`: Python's
`tuple(int(hex_color[i:i+2], 16) for i in (0, 2, 4))` over the already
stripped character list.  Any character past index 5 is never read. -/
def hexSlices (cs : List Char) : Option (Nat × Nat × Nat) :=
  match parseHexNonempty (cs.take 2), parseHexNonempty ((cs.drop 2).take 2),
        parseHexNonempty ((cs.drop 4).take 2) with
  | some r, some g, some b => some (r, g, b)
  | _, _, _ => none

/-- `hex_to_rgb` (`utils/color_utils.py` lines 7-17):
`hex_color.lstrip('#')` removes every leading `'#'`, then the three
two-character slices at offsets 0, 2, 4 are parsed base 16.  A failed parse
(Python `ValueError`) is `none`; because the slice parser is restricted
(see `hexVal?`), the model's `none` set is a superset of the program's
failures, and `some` results agree with the program. -/
def hex_to_rgb (s : String) : Option (Nat × Nat × Nat) :=
  hexSlices (s.data.dropWhile (fun c => c = '#'))

/-- A finding with INFO severity (concrete input for claim C1). -/
def infoFinding : Finding :=
  { rule_id := "rule_01", slide_number := 1, shape_id := none,
    severity := Severity.info, action_type := ActionType.suggest,
    meta_is_large_text := none }

/-- C1 counterexample: the claim says the INFO weight is 0.5, so a single
INFO finding would have to score `100 - 0.5 = 99.5`; the code's
`calculate_score` weighs INFO at 0 and returns 100. -/
theorem calculate_score_info_cex :
    calculate_score [infoFinding] = 100 ∧ calculate_score [infoFinding] ≠ 99.5 := by
  have h : calculate_score [infoFinding] = 100 := by
    unfold calculate_score
    norm_num [infoFinding, severity_weight_base, pyRound1, roundHalfEven]
  exact ⟨h, by rw [h]; norm_num⟩

/-- C1 (amended): `calculate_score` returns 100.0 on an empty list and
otherwise `max 0 (100 - total_weight)` where each finding contributes its
severity weight with weights 10, 5, 2, 1, 0 for CRITICAL, HIGH, MEDIUM,
LOW, INFO (the `/100*100` in the source cancels and the one-decimal
rounding is the identity on these integer values); the result is always in
[0, 100]. -/
theorem calculate_score_amended (findings : List Finding) :
    calculate_score findings =
      (if findings = [] then 100
       else max 0 (100 - (((findings.map
             (fun f => severity_weight_base f.severity)).sum : ℕ) : ℚ))) ∧
    0 ≤ calculate_score findings ∧ calculate_score findings ≤ 100 := by
  have key : calculate_score findings =
      (if findings = [] then 100
       else max 0 (100 - (((findings.map
             (fun f => severity_weight_base f.severity)).sum : ℕ) : ℚ))) := by
    unfold calculate_score
    by_cases h : findings = []
    · simp [h]
    · simp only [h, if_false]
      set tw : ℕ := (findings.map (fun f => severity_weight_base f.severity)).sum with htw
      have h1 : ((tw : ℚ) / 100 * 100) = (tw : ℚ) := by ring
      rw [h1]
      have h2 : max 0 (100 - (tw : ℚ)) = ((max 0 (100 - (tw : ℤ)) : ℤ) : ℚ) := by
        push_cast
        rfl
      rw [h2, pyRound1_intCast]
  refine ⟨key, ?_, ?_⟩
  · rw [key]
    split
    · norm_num
    · exact le_max_left _ _
  · rw [key]
    split
    · norm_num
    · refine max_le (by norm_num) ?_
      have hnn : (0:ℚ) ≤ (((findings.map
          (fun f => severity_weight_base f.severity)).sum : ℕ) : ℚ) := by positivity
      linarith

/-- Success of the accumulating parse only depends on every character being
a hex digit. -/
theorem parseHexAux_isSome (l : List Char) (acc : Nat) :
    (parseHexAux l acc).isSome = l.all (fun c => (hexVal? c).isSome) := by
  induction l generalizing acc with
  | nil => simp [parseHexAux]
  | cons c cs ih =>
    rw [parseHexAux]
    cases h : hexVal? c <;> simp [h, ih]

/-- Success of `parseHexNonempty`: the slice is nonempty and all digits. -/
theorem parseHexNonempty_isSome (l : List Char) :
    (parseHexNonempty l).isSome = (!l.isEmpty && l.all (fun c => (hexVal? c).isSome)) := by
  cases l with
  | nil => simp [parseHexNonempty]
  | cons c cs => simp [parseHexNonempty, parseHexAux_isSome]

/-- `hexSlices` succeeds exactly when all three slice parses succeed. -/
theorem hexSlices_isSome (cs : List Char) :
    (hexSlices cs).isSome =
      ((parseHexNonempty (cs.take 2)).isSome &&
       (parseHexNonempty ((cs.drop 2).take 2)).isSome &&
       (parseHexNonempty ((cs.drop 4).take 2)).isSome) := by
  unfold hexSlices
  rcases h1 : parseHexNonempty (cs.take 2) with _ | r <;>
    rcases h2 : parseHexNonempty ((cs.drop 2).take 2) with _ | g <;>
      rcases h3 : parseHexNonempty ((cs.drop 4).take 2) with _ | b <;>
        simp [h1, h2, h3]

/-- Characterization of the inputs on which the slicing parse succeeds. -/
theorem hexSlices_isSome_iff (cs : List Char) :
    (hexSlices cs).isSome = true ↔
      (5 ≤ cs.length ∧ ∀ c ∈ cs.take 6, (hexVal? c).isSome = true) := by
  rw [hexSlices_isSome]
  rcases cs with _ | ⟨a, _ | ⟨b, _ | ⟨c, _ | ⟨d, _ | ⟨e, _ | ⟨f, rest⟩⟩⟩⟩⟩⟩ <;>
    simp [parseHexNonempty_isSome, List.all, and_assoc]

/-- C5 counterexample: `"ABCDE"` is not six hex digits (it has five), yet
`hex_to_rgb` returns the channel triple `(0xAB, 0xCD, 0xE)` instead of
failing: the third slice `hex_color[4:6]` is the single digit `"E"`. -/
theorem hex_to_rgb_not_six_digits_cex :
    hex_to_rgb "ABCDE" = some (171, 205, 14) ∧
      ("ABCDE".data.dropWhile (fun c => c = '#')).length = 5 := by
  constructor
  · decide
  · decide

/-- C5 (amended): `hex_to_rgb` performs no six-hex-digit validation.  After
stripping every leading `'#'`, any input whose first five characters are
hex digits — and whose sixth, when present, is also a hex digit — returns a
channel triple, with every character past the sixth ignored: a 5-hex-digit
string returns a triple (its third channel parsed from a single digit), and
trailing garbage after six hex digits is accepted, e.g.
`hex_to_rgb "AABBCCZZ" = (0xAA, 0xBB, 0xCC)`.  The code raises only when
`int(·, 16)` rejects one of the three slices, never from a length or
format check.  (Only this acceptance direction is formalized: the embedded
slice parser is a strict under-approximation of CPython's `int`, see
`hexVal?`, so the model's failures do not characterize the program's.) -/
theorem hex_to_rgb_amended (s : String) :
    ((5 ≤ (s.data.dropWhile (fun c => c = '#')).length ∧
      ∀ c ∈ (s.data.dropWhile (fun c => c = '#')).take 6,
        (hexVal? c).isSome = true) →
      (hex_to_rgb s).isSome = true) ∧
    hex_to_rgb "AABBCCZZ" = some (170, 187, 204) := by
  constructor
  · intro h
    unfold hex_to_rgb
    exact (hexSlices_isSome_iff _).mpr h
  · decide

/-- A single hex digit is at most 15. -/
theorem hexVal?_le_15 (c : Char) (v : Nat) (h : hexVal? c = some v) : v ≤ 15 := by
  simp only [hexVal?] at h
  split_ifs at h <;> simp_all <;> omega

/-- A two-character slice parses to at most 255 = 0xFF. -/
theorem parseHex2_le (l : List Char) (v : Nat)
    (h : parseHexNonempty (l.take 2) = some v) : v ≤ 255 := by
  rcases l with _ | ⟨a, _ | ⟨b, t⟩⟩
  · simp [parseHexNonempty] at h
  · cases ha : hexVal? a with
    | none => simp [parseHexNonempty, parseHexAux, ha] at h
    | some va =>
      have hva := hexVal?_le_15 a va ha
      simp [parseHexNonempty, parseHexAux, ha] at h
      omega
  · cases ha : hexVal? a with
    | none => simp [parseHexNonempty, parseHexAux, ha] at h
    | some va =>
      cases hb : hexVal? b with
      | none => simp [parseHexNonempty, parseHexAux, ha, hb] at h
      | some vb =>
        have hva := hexVal?_le_15 a va ha
        have hvb := hexVal?_le_15 b vb hb
        simp [parseHexNonempty, parseHexAux, ha, hb] at h
        omega

/-- Every channel `hex_to_rgb` produces is an 8-bit value (at most two hex
digits per slice). -/
theorem hex_to_rgb_le_255 (s : String) (v : ℕ × ℕ × ℕ)
    (h : hex_to_rgb s = some v) : v.1 ≤ 255 ∧ v.2.1 ≤ 255 ∧ v.2.2 ≤ 255 := by
  unfold hex_to_rgb hexSlices at h
  cases h1 : parseHexNonempty ((s.data.dropWhile (fun c => c = '#')).take 2) with
  | none => rw [h1] at h; simp at h
  | some r =>
    cases h2 : parseHexNonempty
        (((s.data.dropWhile (fun c => c = '#')).drop 2).take 2) with
    | none => rw [h1, h2] at h; simp at h
    | some g =>
      cases h3 : parseHexNonempty
          (((s.data.dropWhile (fun c => c = '#')).drop 4).take 2) with
      | none => rw [h1, h2, h3] at h; simp at h
      | some b =>
        rw [h1, h2, h3] at h
        simp at h
        subst h
        exact ⟨parseHex2_le _ _ h1, parseHex2_le _ _ h2, parseHex2_le _ _ h3⟩

/-- The per-channel gamma correction inside `get_relative_luminance`
(`utils/color_utils.py` lines 47-50): `v / 12.92` for `v ≤ 0.03928`, else
`((v + 0.055) / 1.055) ** 2.4`. -/
noncomputable def gamma_correct (v : ℝ) : ℝ :=
  if v ≤ 0.03928 then v / 12.92 else ((v + 0.055) / 1.055) ^ (2.4 : ℝ)

/-- `get_relative_luminance` (`utils/color_utils.py` lines 34-57): channels
normalized to [0,1], gamma corrected, combined as
`0.2126·R + 0.7152·G + 0.0722·B`. -/
noncomputable def get_relative_luminance (rgb : ℕ × ℕ × ℕ) : ℝ :=
  0.2126 * gamma_correct (rgb.1 / 255) + 0.7152 * gamma_correct (rgb.2.1 / 255)
    + 0.0722 * gamma_correct (rgb.2.2 / 255)

/-- The arithmetic core of `get_contrast_ratio` (`utils/color_utils.py`
lines 73-81) on already-parsed channel triples: the luminances are swapped
so the lighter is the numerator, then `(l1 + 0.05) / (l2 + 0.05)`. -/
noncomputable def contrastRatioRGB (c1 c2 : ℕ × ℕ × ℕ) : ℝ :=
  let lum1 := get_relative_luminance c1
  let lum2 := get_relative_luminance c2
  if lum1 < lum2 then (lum2 + 0.05) / (lum1 + 0.05) else (lum1 + 0.05) / (lum2 + 0.05)

/-- `get_contrast_ratio` (`utils/color_utils.py` lines 60-81); `none` when
either hex parse raises. -/
noncomputable def get_contrast_ratio (color1 color2 : String) : Option ℝ :=
  match hex_to_rgb color1, hex_to_rgb color2 with
  | some rgb1, some rgb2 => some (contrastRatioRGB rgb1 rgb2)
  | _, _ => none

/-- `meets_wcag_aa` (`utils/color_utils.py` lines 84-96): threshold 3.0 for
large text, 4.5 otherwise. -/
def meets_wcag_aa (contrast : ℝ) (large_text : Bool) : Prop :=
  if large_text then contrast ≥ 3.0 else contrast ≥ 4.5

theorem gamma_correct_nonneg (v : ℝ) (hv : 0 ≤ v) : 0 ≤ gamma_correct v := by
  unfold gamma_correct
  split
  · positivity
  · exact Real.rpow_nonneg (by positivity) _

theorem gamma_correct_le_one (v : ℝ) (hv : 0 ≤ v) (hv1 : v ≤ 1) : gamma_correct v ≤ 1 := by
  unfold gamma_correct
  split
  · rw [div_le_one (by norm_num)]
    linarith
  · apply Real.rpow_le_one (by positivity) ?_ (by norm_num)
    rw [div_le_one (by norm_num)]
    linarith

theorem lum_nonneg (rgb : ℕ × ℕ × ℕ) : 0 ≤ get_relative_luminance rgb := by
  unfold get_relative_luminance
  have h1 := gamma_correct_nonneg ((rgb.1 : ℝ) / 255) (by positivity)
  have h2 := gamma_correct_nonneg ((rgb.2.1 : ℝ) / 255) (by positivity)
  have h3 := gamma_correct_nonneg ((rgb.2.2 : ℝ) / 255) (by positivity)
  nlinarith

theorem lum_le_one (rgb : ℕ × ℕ × ℕ) (h1 : rgb.1 ≤ 255) (h2 : rgb.2.1 ≤ 255)
    (h3 : rgb.2.2 ≤ 255) : get_relative_luminance rgb ≤ 1 := by
  unfold get_relative_luminance
  have c1 : ((rgb.1 : ℝ)) / 255 ≤ 1 := by
    rw [div_le_one (by norm_num)]
    exact_mod_cast Nat.cast_le.mpr h1
  have c2 : ((rgb.2.1 : ℝ)) / 255 ≤ 1 := by
    rw [div_le_one (by norm_num)]
    exact_mod_cast Nat.cast_le.mpr h2
  have c3 : ((rgb.2.2 : ℝ)) / 255 ≤ 1 := by
    rw [div_le_one (by norm_num)]
    exact_mod_cast Nat.cast_le.mpr h3
  have g1 := gamma_correct_le_one _ (by positivity) c1
  have g2 := gamma_correct_le_one _ (by positivity) c2
  have g3 := gamma_correct_le_one _ (by positivity) c3
  have n1 := gamma_correct_nonneg ((rgb.1 : ℝ) / 255) (by positivity)
  have n2 := gamma_correct_nonneg ((rgb.2.1 : ℝ) / 255) (by positivity)
  have n3 := gamma_correct_nonneg ((rgb.2.2 : ℝ) / 255) (by positivity)
  nlinarith

theorem contrastRatioRGB_symm (x y : ℕ × ℕ × ℕ) :
    contrastRatioRGB x y = contrastRatioRGB y x := by
  unfold contrastRatioRGB
  by_cases h : get_relative_luminance x < get_relative_luminance y
  · rw [if_pos h, if_neg (not_lt.mpr (le_of_lt h))]
  · by_cases h2 : get_relative_luminance y < get_relative_luminance x
    · rw [if_neg h, if_pos h2]
    · have heq : get_relative_luminance x = get_relative_luminance y :=
        le_antisymm (not_lt.mp h2) (not_lt.mp h)
      rw [if_neg h, if_neg h2, heq]

theorem contrastRatioRGB_self (x : ℕ × ℕ × ℕ) : contrastRatioRGB x x = 1 := by
  unfold contrastRatioRGB
  rw [if_neg (lt_irrefl _)]
  exact div_self (by have := lum_nonneg x; linarith)

theorem ratio_div_bounds (a b : ℝ) (_ : 0 ≤ a) (ha1 : a ≤ 1) (hb0 : 0 ≤ b)
    (hba : b ≤ a) :
    1 ≤ (a + 0.05) / (b + 0.05) ∧ (a + 0.05) / (b + 0.05) ≤ 21 := by
  constructor
  · rw [le_div_iff₀ (by linarith)]
    linarith
  · rw [div_le_iff₀ (by linarith)]
    linarith

theorem contrastRatioRGB_bounds (x y : ℕ × ℕ × ℕ)
    (hx1 : x.1 ≤ 255) (hx2 : x.2.1 ≤ 255) (hx3 : x.2.2 ≤ 255)
    (hy1 : y.1 ≤ 255) (hy2 : y.2.1 ≤ 255) (hy3 : y.2.2 ≤ 255) :
    1 ≤ contrastRatioRGB x y ∧ contrastRatioRGB x y ≤ 21 := by
  unfold contrastRatioRGB
  by_cases h : get_relative_luminance x < get_relative_luminance y
  · rw [if_pos h]
    exact ratio_div_bounds _ _ (lum_nonneg y) (lum_le_one y hy1 hy2 hy3)
      (lum_nonneg x) (le_of_lt h)
  · rw [if_neg h]
    exact ratio_div_bounds _ _ (lum_nonneg x) (lum_le_one x hx1 hx2 hx3)
      (lum_nonneg y) (not_lt.mp h)

/-- C8: `get_contrast_ratio` is symmetric in its two colors, every ratio it
returns lies in [1, 21], and a color against itself has ratio exactly 1. -/
theorem get_contrast_ratio_symm_range_self (a b c : String) :
    get_contrast_ratio a b = get_contrast_ratio b a ∧
    (∀ r : ℝ, get_contrast_ratio a b = some r → 1 ≤ r ∧ r ≤ 21) ∧
    ((hex_to_rgb c).isSome = true → get_contrast_ratio c c = some 1) := by
  refine ⟨?_, ?_, ?_⟩
  · unfold get_contrast_ratio
    cases h1 : hex_to_rgb a with
    | none => cases h2 : hex_to_rgb b <;> simp
    | some v1 =>
      cases h2 : hex_to_rgb b with
      | none => simp
      | some v2 => simp [contrastRatioRGB_symm v1 v2]
  · intro r hr
    unfold get_contrast_ratio at hr
    cases h1 : hex_to_rgb a with
    | none => rw [h1] at hr; simp at hr
    | some v1 =>
      cases h2 : hex_to_rgb b with
      | none => rw [h1, h2] at hr; simp at hr
      | some v2 =>
        rw [h1, h2] at hr
        simp at hr
        obtain ⟨e1, e2, e3⟩ := hex_to_rgb_le_255 a v1 h1
        obtain ⟨f1, f2, f3⟩ := hex_to_rgb_le_255 b v2 h2
        rw [← hr]
        exact contrastRatioRGB_bounds v1 v2 e1 e2 e3 f1 f2 f3
  · intro hc
    obtain ⟨v, hv⟩ := Option.isSome_iff_exists.mp hc
    unfold get_contrast_ratio
    rw [hv]
    simp [contrastRatioRGB_self]

/-- C8 witness: the properties at the concrete colors black, white and
`#123456`. -/
theorem get_contrast_ratio_symm_range_self_wit :
    get_contrast_ratio "#000000" "#FFFFFF" = get_contrast_ratio "#FFFFFF" "#000000" ∧
    (1 ≤ contrastRatioRGB (0, 0, 0) (255, 255, 255) ∧
      contrastRatioRGB (0, 0, 0) (255, 255, 255) ≤ 21) ∧
    get_contrast_ratio "#123456" "#123456" = some 1 := by
  have h := get_contrast_ratio_symm_range_self "#000000" "#FFFFFF" "#123456"
  refine ⟨h.1, h.2.1 _ ?_, h.2.2 (by decide)⟩
  unfold get_contrast_ratio
  rw [show hex_to_rgb "#000000" = some (0, 0, 0) from by decide,
      show hex_to_rgb "#FFFFFF" = some (255, 255, 255) from by decide]

/-- `rgb_to_hex` (`utils/color_utils.py` lines 20-31): Python's
`f"#{r:02x}{g:02x}{b:02x}"` for 8-bit channel values (for a value above 255
Python would print more than two digits; every channel reaching this
function is at most 255: parsed channels by `hex_to_rgb_le_255`, and the
concrete darkened channels appearing in the claims are checked to be
8-bit values). -/
def rgb_to_hex (r g b : ℕ) : String :=
  "#" ++ String.mk [Nat.digitChar (r / 16 % 16), Nat.digitChar (r % 16),
                    Nat.digitChar (g / 16 % 16), Nat.digitChar (g % 16),
                    Nat.digitChar (b / 16 % 16), Nat.digitChar (b % 16)]

/-- `⌊log2 n⌋` for `n ≥ 1` (0 for `n = 0`), by fuelled halving. -/
def log2fuel : ℕ → ℕ → ℕ
  | 0, _ => 0
  | fuel + 1, n => if 2 ≤ n then log2fuel fuel (n / 2) + 1 else 0

def natLog2 (n : ℕ) : ℕ := log2fuel n n

/-- Is the fraction `a / b` (with `b ≥ 1`) below `2 ^ e`? -/
def dyadicLtPow2 (a b : ℕ) (e : ℤ) : Bool :=
  if 0 ≤ e then a < b * 2 ^ e.toNat else a * 2 ^ (-e).toNat < b

/-- `⌊log2 (a / b)⌋` for a positive fraction: the integer estimate
`⌊log2 a⌋ - ⌊log2 b⌋` is exact or one too high, fixed by comparison. -/
def ratFloorLog2 (a b : ℕ) : ℤ :=
  let e0 : ℤ := (natLog2 a : ℤ) - (natLog2 b : ℤ)
  if dyadicLtPow2 a b e0 then e0 - 1
  else if dyadicLtPow2 a b (e0 + 1) then e0 else e0 + 1

/-- Round the exact fraction `a / b` (`a ≥ 0`, `b ≥ 1`) to the nearest
IEEE-754 binary64 value: the result is `m × 2 ^ (e - 52)` with the 53-bit
significand `2^52 ≤ m ≤ 2^53`, rounded to nearest with ties to even.
Exact (no overflow or subnormals) for every magnitude this file uses;
`a = 0` yields `m = 0`. -/
def rnd53Frac (a b : ℕ) : ℕ × ℤ :=
  let e : ℤ := ratFloorLog2 a b
  let shift : ℤ := 52 - e
  let A : ℕ := if 0 ≤ shift then a * 2 ^ shift.toNat else a
  let B : ℕ := if 0 ≤ shift then b else b * 2 ^ (-shift).toNat
  let n : ℕ := A / B
  let r : ℕ := A % B
  let m : ℕ :=
    if 2 * r < B then n else if B < 2 * r then n + 1
    else if n % 2 = 0 then n else n + 1
  (m, e)

/-- The binary64 value of the literal `0.05`:
`rnd53Frac 1 20 = (7205759403792794, -5)`, i.e.
`0.05000000000000000277…`. -/
def float05F : ℕ × ℤ := rnd53Frac 1 20

/-- One channel of a darkening step of `suggest_darker_color`
(`utils/color_utils.py` line 130): `max(0, int(c * (1 - factor * 0.05)))`
computed in CPython's binary64 arithmetic — `factor * 0.05`, `1 - t1` and
`c * t2` are each rounded to the nearest double (the exact differences and
products are fractions, re-rounded by `rnd53Frac`), and `int` truncates
toward zero.  Every intermediate here is nonnegative (for `factor ≤ 20`;
larger factors never occur, the loop runs `factor = 1..19`), so the final
`ℕ`-valued truncation is Python's `max(0, int(·))`. -/
def darkenChannel (c factor : ℕ) : ℕ :=
  let p1 : ℕ := 2 ^ ((52 : ℤ) - float05F.2).toNat
  let t1 : ℕ × ℤ := rnd53Frac (factor * float05F.1) p1
  let p2 : ℕ := 2 ^ ((52 : ℤ) - t1.2).toNat
  let t2 : ℕ × ℤ := rnd53Frac (p2 - t1.1) p2
  let p3 : ℕ := 2 ^ ((52 : ℤ) - t2.2).toNat
  let t3 : ℕ × ℤ := rnd53Frac (c * t2.1) p3
  if 52 ≤ t3.2 then t3.1 * 2 ^ (t3.2 - 52).toNat
  else t3.1 / 2 ^ ((52 : ℤ) - t3.2).toNat

/-- One darkening step of `suggest_darker_color` over the channel triple. -/
def darkenStep (rgb : ℕ × ℕ × ℕ) (factor : ℕ) : ℕ × ℕ × ℕ :=
  (darkenChannel rgb.1 factor, darkenChannel rgb.2.1 factor,
   darkenChannel rgb.2.2 factor)

/-- Validation of the binary64 model: at `factor = 12` the double product
truncates one below the exact rational floor (`12 * 0.05` rounds up to
`0.60000000000000008882…`, so `1 - …` falls just under `0.4`), e.g.
`int(5 * (1 - 12*0.05)) = 1` though `⌊5·8/20⌋ = 2`, and
`int(255 * (1 - 12*0.05)) = 101` though `⌊255·8/20⌋ = 102`; at
`factor = 1`, `int(119 * 0.95) = 113` agrees with the exact floor. -/
theorem darkenChannel_float_semantics :
    darkenChannel 5 12 = 1 ∧ 5 * (20 - 12) / 20 = 2 ∧
    darkenChannel 255 12 = 101 ∧ 255 * (20 - 12) / 20 = 102 ∧
    darkenChannel 119 1 = 113 := by
  set_option maxRecDepth 8000 in decide

open Classical in
/-- The `for factor in range(1, 20)` loop of `suggest_darker_color`: return
the first stepped color whose contrast ratio against the background meets
the target, `"#000000"` when none does. -/
noncomputable def darkerSearch (rgb : ℕ × ℕ × ℕ) (target : ℝ) (bg : ℕ × ℕ × ℕ) :
    List ℕ → String
  | [] => "#000000"
  | f :: fs =>
    if contrastRatioRGB (darkenStep rgb f) bg ≥ target then
      rgb_to_hex (darkenStep rgb f).1 (darkenStep rgb f).2.1 (darkenStep rgb f).2.2
    else darkerSearch rgb target bg fs

/-- `suggest_darker_color` (`utils/color_utils.py` lines 114-138).  `none`
models the `ValueError` escaping when `hex_color` (parsed up front) or
`background` (parsed inside `get_contrast_ratio` on the first iteration) is
malformed; each stepped color is produced by `rgb_to_hex` and re-parses to
the same triple, so the per-step ratio is computed directly on the
triple. -/
noncomputable def suggest_darker_color (hex_color : String) (target_contrast : ℝ)
    (background : String) : Option String :=
  match hex_to_rgb hex_color, hex_to_rgb background with
  | some rgb, some bg => some (darkerSearch rgb target_contrast bg (List.range' 1 19))
  | _, _ => none

/-- If every step fails the target, the search falls back to black. -/
theorem darkerSearch_all_fail (rgb : ℕ × ℕ × ℕ) (target : ℝ) (bg : ℕ × ℕ × ℕ)
    (l : List ℕ) (h : ∀ f ∈ l, ¬ (contrastRatioRGB (darkenStep rgb f) bg ≥ target)) :
    darkerSearch rgb target bg l = "#000000" := by
  induction l with
  | nil => rfl
  | cons f fs ih =>
    have step : darkerSearch rgb target bg (f :: fs)
        = if contrastRatioRGB (darkenStep rgb f) bg ≥ target then
            rgb_to_hex (darkenStep rgb f).1 (darkenStep rgb f).2.1 (darkenStep rgb f).2.2
          else darkerSearch rgb target bg fs := rfl
    rw [step, if_neg (h f (List.mem_cons_self f fs))]
    exact ih (fun g hg => h g (List.mem_cons_of_mem f hg))

/-- Luminance of a gray triple is the gamma-corrected channel (the three
WCAG coefficients sum to 1). -/
theorem lum_gray (v : ℕ) :
    get_relative_luminance (v, v, v) = gamma_correct ((v : ℝ) / 255) := by
  show 0.2126 * gamma_correct ((v : ℝ) / 255) + 0.7152 * gamma_correct ((v : ℝ) / 255)
      + 0.0722 * gamma_correct ((v : ℝ) / 255) = gamma_correct ((v : ℝ) / 255)
  ring

/-- Luminance of white is exactly 1. -/
theorem lum_white : get_relative_luminance (255, 255, 255) = 1 := by
  rw [lum_gray]
  unfold gamma_correct
  rw [show (((255 : ℕ) : ℝ) / 255) = 1 by norm_num]
  rw [if_neg (by norm_num)]
  rw [show ((1 : ℝ) + 0.055) / 1.055 = 1 by norm_num]
  exact Real.one_rpow _

/-- Comparing `x ^ 2.4` with a bound reduces to comparing the natural
powers `x ^ 12` and `bound ^ 5`, since `2.4 = 12 / 5`. -/
theorem rpow24_le_iff (x y : ℝ) (hx : 0 ≤ x) (hy : 0 ≤ y) :
    x ^ (2.4 : ℝ) ≤ y ↔ x ^ (12 : ℕ) ≤ y ^ (5 : ℕ) := by
  have key : (x ^ (2.4 : ℝ)) ^ (5 : ℕ) = x ^ (12 : ℕ) := by
    rw [← Real.rpow_natCast (x ^ (2.4 : ℝ)) 5, ← Real.rpow_mul hx]
    rw [show (2.4 : ℝ) * ((5 : ℕ) : ℝ) = ((12 : ℕ) : ℝ) by push_cast; norm_num]
    rw [Real.rpow_natCast]
  rw [← key]
  exact (pow_le_pow_iff_left₀ (Real.rpow_nonneg hx _) hy (by norm_num)).symm

theorem gamma_113 :
    gamma_correct (((113 : ℕ) : ℝ) / 255) = ((5081 : ℝ) / 10761) ^ (2.4 : ℝ) := by
  unfold gamma_correct
  rw [if_neg (by norm_num)]
  rw [show ((((113 : ℕ) : ℝ) / 255) + 0.055) / 1.055 = (5081 : ℝ) / 10761 by norm_num]

theorem lum113_le : get_relative_luminance (113, 113, 113) ≤ 11 / 60 := by
  rw [lum_gray, gamma_113]
  rw [rpow24_le_iff _ _ (by norm_num) (by norm_num)]
  norm_num

theorem lum113_lt_one : get_relative_luminance (113, 113, 113) < 1 := by
  rw [lum_gray, gamma_113]
  exact Real.rpow_lt_one (by norm_num) (by norm_num) (by norm_num)

theorem ratio113_ge : contrastRatioRGB (113, 113, 113) (255, 255, 255) ≥ 4.5 := by
  unfold contrastRatioRGB
  rw [if_pos (by rw [lum_white]; exact lum113_lt_one)]
  rw [lum_white]
  rw [ge_iff_le, le_div_iff₀ (by have := lum_nonneg (113, 113, 113); linarith)]
  have h := lum113_le
  linarith

/-- C9: `suggest_darker_color("#777777", 4.5, "#FFFFFF")` succeeds at the
first step `k = 1` (channels `int(119 * 0.95) = 113`), returning
`"#717171"`, whose contrast ratio against white is at least 4.5 and whose
channels are each at most the corresponding channel 119 = 0x77 of the
input; and with an unattainable target (25 > 21) every one of the 19 steps
fails and the search returns the black fallback `"#000000"`. -/
theorem suggest_darker_color_search :
    suggest_darker_color "#777777" 4.5 "#FFFFFF" = some "#717171" ∧
    contrastRatioRGB (113, 113, 113) (255, 255, 255) ≥ 4.5 ∧
    get_contrast_ratio "#717171" "#FFFFFF"
      = some (contrastRatioRGB (113, 113, 113) (255, 255, 255)) ∧
    hex_to_rgb "#717171" = some (113, 113, 113) ∧
    hex_to_rgb "#777777" = some (119, 119, 119) ∧
    113 ≤ 119 ∧
    suggest_darker_color "#777777" 25 "#FFFFFF" = some "#000000" := by
  refine ⟨?_, ratio113_ge, ?_, by decide, by decide, by norm_num, ?_⟩
  · unfold suggest_darker_color
    rw [show hex_to_rgb "#777777" = some (119, 119, 119) from by decide,
        show hex_to_rgb "#FFFFFF" = some (255, 255, 255) from by decide]
    show some (darkerSearch (119, 119, 119) 4.5 (255, 255, 255) (List.range' 1 19))
        = some "#717171"
    have hstep : darkenStep (119, 119, 119) 1 = (113, 113, 113) := by
      set_option maxRecDepth 8000 in decide
    have step1 : darkerSearch (119, 119, 119) 4.5 (255, 255, 255) (List.range' 1 19)
        = if contrastRatioRGB (darkenStep (119, 119, 119) 1) (255, 255, 255) ≥ 4.5 then
            rgb_to_hex (darkenStep (119, 119, 119) 1).1 (darkenStep (119, 119, 119) 1).2.1
              (darkenStep (119, 119, 119) 1).2.2
          else darkerSearch (119, 119, 119) 4.5 (255, 255, 255) (List.range' 2 18) := rfl
    rw [step1, hstep, if_pos ratio113_ge]
    decide
  · unfold get_contrast_ratio
    rw [show hex_to_rgb "#717171" = some (113, 113, 113) from by decide,
        show hex_to_rgb "#FFFFFF" = some (255, 255, 255) from by decide]
  · unfold suggest_darker_color
    rw [show hex_to_rgb "#777777" = some (119, 119, 119) from by decide,
        show hex_to_rgb "#FFFFFF" = some (255, 255, 255) from by decide]
    show some (darkerSearch (119, 119, 119) 25 (255, 255, 255) (List.range' 1 19))
        = some "#000000"
    congr 1
    have hb255 : ∀ f ∈ List.range' 1 19,
        (darkenStep (119, 119, 119) f).1 ≤ 255 ∧
        (darkenStep (119, 119, 119) f).2.1 ≤ 255 ∧
        (darkenStep (119, 119, 119) f).2.2 ≤ 255 := by
      set_option maxRecDepth 8000 in decide
    apply darkerSearch_all_fail
    intro f hf
    intro hge
    obtain ⟨d1, d2, d3⟩ := hb255 f hf
    have hb := contrastRatioRGB_bounds (darkenStep (119, 119, 119) f) (255, 255, 255)
      d1 d2 d3 (by norm_num) (by norm_num) (by norm_num)
    have := hb.2
    norm_num at hge
    linarith

/-- One text run as extracted by `PPTXReader._extract_text_frame_info`
(`pptx_access/reader.py` lines 94-112): `font_name` is always a string (the
reader substitutes `"Unknown"`), `font_size` in points or `None`,
`bold`/`italic`/`underline` tri-state, `font_color` a hex string or
`None`. -/
structure Run where
  text : String
  font_name : String
  font_size : Option ℚ
  bold : Option Bool
  italic : Option Bool
  underline : Option Bool
  font_color : Option String
deriving DecidableEq

/-- The `text_frame` dict of `PPTXReader._extract_text_frame_info`. -/
structure TextFrame where
  paragraph_count : ℕ
  runs : List Run
deriving DecidableEq

/-- One entry of `PPTXReader.get_all_text_shapes` (`pptx_access/reader.py`
lines 45-77). -/
structure ShapeInfo where
  shape_index : ℕ
  shape_id : ℕ
  shape_name : String
  text : String
  is_title : Bool
  is_placeholder : Bool
  text_frame : Option TextFrame
deriving DecidableEq

/-- One slide as the rules see it through the reader interface:
`get_slide_title`, `get_slide_layout_name`, `get_all_text_shapes`. -/
structure Slide where
  title : Option String
  layout_name : String
  text_shapes : List ShapeInfo
deriving DecidableEq

/-- A loaded presentation as the rules and the orchestrator see it through
`PPTXReader`: `get_slide_count` is `slides.length`; `core_title` is
`core_properties.title`. -/
structure Pres where
  slides : List Slide
  core_title : Option String
deriving DecidableEq

/-- Python truthiness of an optional string (`None` and `""` are falsy). -/
def pyTruthyStr : Option String → Bool
  | none => false
  | some s => !(s = "")

/-- `PPTXReader.has_title` (`pptx_access/reader.py` lines 155-165):
the title is not `None` and nonempty. -/
def has_title (s : Slide) : Bool :=
  match s.title with
  | none => false
  | some t => decide (0 < t.length)

/-- Does `needle` occur at the head of `hay`? -/
def beginsWith : List Char → List Char → Bool
  | [], _ => true
  | _ :: _, [] => false
  | a :: as, b :: bs => a = b && beginsWith as bs

/-- Python's substring test `needle in hay`. -/
def containsSub (needle : List Char) : List Char → Bool
  | [] => needle.isEmpty
  | c :: rest => beginsWith needle (c :: rest) || containsSub needle rest

/-- The title checks of `StructureRule.analyze`
(`rules/rule_01_structure.py` lines 36-69): a CRITICAL "Missing slide
title" when `not has_title or not title`, else a MEDIUM "Title too short"
when the title is truthy and shorter than 3 characters. -/
def structureTitleFindings (idx : ℕ) (s : Slide) : List Finding :=
  if !(has_title s) || !(pyTruthyStr s.title) then
    [{ rule_id := "rule_01", slide_number := idx + 1, shape_id := none,
       severity := Severity.critical, action_type := ActionType.suggest,
       meta_is_large_text := none }]
  else if pyTruthyStr s.title && decide ((s.title.getD "").length < 3) then
    [{ rule_id := "rule_01", slide_number := idx + 1, shape_id := none,
       severity := Severity.medium, action_type := ActionType.suggest,
       meta_is_large_text := none }]
  else []

/-- The layout check of `StructureRule.analyze`
(`rules/rule_01_structure.py` lines 71-92): a MEDIUM "Blank layout with
text boxes" when the lower-cased layout name contains `"blank"` and some
text shape is not a placeholder. -/
def structureLayoutFindings (idx : ℕ) (s : Slide) : List Finding :=
  if containsSub "blank".data s.layout_name.toLower.data then
    if 0 < (s.text_shapes.filter (fun sh => !sh.is_placeholder)).length then
      [{ rule_id := "rule_01", slide_number := idx + 1, shape_id := none,
         severity := Severity.medium, action_type := ActionType.suggest,
         meta_is_large_text := none }]
    else []
  else []

/-- `StructureRule.analyze` (`rules/rule_01_structure.py` lines 23-94). -/
def structure_analyze (p : Pres) : List Finding :=
  p.slides.enum.flatMap (fun pr =>
    structureTitleFindings pr.1 pr.2 ++ structureLayoutFindings pr.1 pr.2)

/-- The `preferred_fonts` default of `FontsRule.analyze`
(`rules/rule_04_fonts.py` lines 33-35; the orchestrator constructs the rule
with no configuration, so the defaults apply). -/
def preferred_fonts : List String :=
  ["Arial", "Calibri", "Helvetica", "Tahoma", "Verdana", "Segoe UI"]

/-- The serif families of `FontsRule.analyze`
(`rules/rule_04_fonts.py` line 74), matched by substring. -/
def serif_fonts : List String :=
  ["Times New Roman", "Georgia", "Garamond", "Palatino"]

/-- The per-run checks of `FontsRule.analyze` (`rules/rule_04_fonts.py`
lines 50-105) with the default configuration (`min_font_size = 24`): small
text (truthy size below 24) is MEDIUM/AUTO_FIX, a serif font outside the
preferred list is LOW/SUGGEST, italic text longer than 50 characters is
LOW/SUGGEST; the three checks are independent. -/
def fontsRunFindings (slideNumber : ℕ) (shapeId : ℕ) (run : Run) : List Finding :=
  (match run.font_size with
   | none => []
   | some sz =>
     if sz ≠ 0 ∧ sz < 24 then
       [{ rule_id := "rule_04", slide_number := slideNumber,
          shape_id := some (toString shapeId), severity := Severity.medium,
          action_type := ActionType.auto_fix, meta_is_large_text := none }]
     else []) ++
  (if run.font_name ≠ "" ∧ run.font_name ∉ preferred_fonts ∧
      serif_fonts.any (fun sf => containsSub sf.data run.font_name.data) then
     [{ rule_id := "rule_04", slide_number := slideNumber,
        shape_id := some (toString shapeId), severity := Severity.low,
        action_type := ActionType.suggest, meta_is_large_text := none }]
   else []) ++
  (if run.italic = some true ∧ 50 < run.text.length then
     [{ rule_id := "rule_04", slide_number := slideNumber,
        shape_id := some (toString shapeId), severity := Severity.low,
        action_type := ActionType.suggest, meta_is_large_text := none }]
   else [])

/-- The shape loop of `FontsRule.analyze`: shapes without text-frame info
are skipped. -/
def fontsShapeFindings (slideNumber : ℕ) (shape : ShapeInfo) : List Finding :=
  match shape.text_frame with
  | none => []
  | some tf => tf.runs.flatMap (fun run => fontsRunFindings slideNumber shape.shape_id run)

/-- `FontsRule.analyze` (`rules/rule_04_fonts.py` lines 23-107). -/
def fonts_analyze (p : Pres) : List Finding :=
  p.slides.enum.flatMap (fun pr =>
    pr.2.text_shapes.flatMap (fun shape => fontsShapeFindings (pr.1 + 1) shape))

/-- The large-text classification of `ContrastRule.analyze`
(`rules/rule_03_contrast.py` lines 66-69): size at least 18pt, or at least
14pt and bold (a `None`/0 size is falsy and never large). -/
def isLargeText (run : Run) : Bool :=
  match run.font_size with
  | none => false
  | some sz => decide (18 ≤ sz) || (decide (14 ≤ sz) && (run.bold == some true))

open Classical in
/-- The per-run check of `ContrastRule.analyze`
(`rules/rule_03_contrast.py` lines 50-114): runs with a falsy
(`None`/empty) font color are skipped; an unparsable color raises inside
`get_contrast_ratio` and the `except` clause skips the run; the background
is the assumed `#FFFFFF`, i.e. the triple `(255, 255, 255)`.  When the
WCAG-AA check fails, the severity is CRITICAL below ratio 2.0, HIGH below
3.0, MEDIUM otherwise, the action is AUTO_FIX, and the metadata records the
large-text flag.  (`suggest_darker_color`, called for the suggested-fix
text, cannot raise here: the same color already parsed, and the fixed
background is valid.) -/
noncomputable def contrastRunFindings (slideNumber : ℕ) (shapeId : ℕ) (run : Run) :
    List Finding :=
  match run.font_color with
  | none => []
  | some fc =>
    if fc = "" then []
    else
      match hex_to_rgb fc with
      | none => []
      | some rgb =>
        if meets_wcag_aa (contrastRatioRGB rgb (255, 255, 255)) (isLargeText run) then []
        else
          [{ rule_id := "rule_03", slide_number := slideNumber,
             shape_id := some (toString shapeId),
             severity :=
               if contrastRatioRGB rgb (255, 255, 255) < 2 then Severity.critical
               else if contrastRatioRGB rgb (255, 255, 255) < 3 then Severity.high
               else Severity.medium,
             action_type := ActionType.auto_fix,
             meta_is_large_text := some (isLargeText run) }]

/-- The shape loop of `ContrastRule.analyze`: shapes without text-frame
info are skipped. -/
noncomputable def contrastShapeFindings (slideNumber : ℕ) (shape : ShapeInfo) :
    List Finding :=
  match shape.text_frame with
  | none => []
  | some tf => tf.runs.flatMap (fun run => contrastRunFindings slideNumber shape.shape_id run)

/-- `ContrastRule.analyze` (`rules/rule_03_contrast.py` lines 29-116). -/
noncomputable def contrast_analyze (p : Pres) : List Finding :=
  p.slides.enum.flatMap (fun pr =>
    pr.2.text_shapes.flatMap (fun shape => contrastShapeFindings (pr.1 + 1) shape))

/-- `StructureRule.apply_fix` (`rules/rule_01_structure.py` lines 96-111):
unconditionally `False`. -/
def structure_apply_fix (_p : Pres) (_finding : Finding) : Bool := false

/-- `ContrastRule.apply_fix` (`rules/rule_03_contrast.py` lines 118-133):
unconditionally `False`. -/
def contrast_apply_fix (_p : Pres) (_finding : Finding) : Bool := false

/-- `FontsRule.apply_fix` (`rules/rule_04_fonts.py` lines 109-127):
`True` when the finding's action type is AUTO_FIX, `False` otherwise. -/
def fonts_apply_fix (_p : Pres) (finding : Finding) : Bool :=
  if finding.action_type = ActionType.auto_fix then true else false

/-- The empty presentation (zero slides). -/
def emptyPres : Pres := { slides := [], core_title := none }

/-- An AUTO_FIX finding such as the fonts rule's own "Text too small". -/
def autoFixFinding : Finding :=
  { rule_id := "rule_04", slide_number := 1, shape_id := some "5",
    severity := Severity.medium, action_type := ActionType.auto_fix,
    meta_is_large_text := none }

/-- C2 counterexample: `FontsRule.apply_fix` returns `True` (not `False`)
on any AUTO_FIX finding, such as the rule's own "Text too small" finding. -/
theorem fonts_apply_fix_cex :
    fonts_apply_fix emptyPres autoFixFinding = true ∧
      autoFixFinding.action_type = ActionType.auto_fix := by
  constructor
  · decide
  · decide

/-- C2 (amended): `StructureRule.apply_fix` and `ContrastRule.apply_fix`
return `False` for every presentation, finding and context;
`FontsRule.apply_fix` instead returns `True` exactly when the finding's
action type is AUTO_FIX (it "validates that the fix could be applied")
and `False` otherwise. -/
theorem apply_fix_amended (p : Pres) (f : Finding) :
    structure_apply_fix p f = false ∧ contrast_apply_fix p f = false ∧
    (fonts_apply_fix p f = true ↔ f.action_type = ActionType.auto_fix) := by
  refine ⟨rfl, rfl, ?_⟩
  unfold fonts_apply_fix
  split <;> simp_all

/-- Any finding `contrastRunFindings` emits for a large-text run has
severity CRITICAL or HIGH: failing AA for large text means the ratio is
below 3.0, so the MEDIUM branch (ratio at least 3.0) is unreachable. -/
theorem contrastRunFindings_large (n sid : ℕ) (run : Run) (f : Finding)
    (hf : f ∈ contrastRunFindings n sid run)
    (hl : f.meta_is_large_text = some true) :
    f.severity = Severity.critical ∨ f.severity = Severity.high := by
  unfold contrastRunFindings at hf
  cases hfc : run.font_color with
  | none => rw [hfc] at hf; simp at hf
  | some fc =>
    rw [hfc] at hf
    simp only [] at hf
    by_cases hemp : fc = ""
    · rw [if_pos hemp] at hf; simp at hf
    · rw [if_neg hemp] at hf
      cases hrgb : hex_to_rgb fc with
      | none => rw [hrgb] at hf; simp at hf
      | some rgb =>
        rw [hrgb] at hf
        simp only [] at hf
        by_cases haa : meets_wcag_aa (contrastRatioRGB rgb (255, 255, 255)) (isLargeText run)
        · rw [if_pos haa] at hf; simp at hf
        · rw [if_neg haa] at hf
          simp at hf
          subst hf
          simp at hl
          rw [hl] at haa
          unfold meets_wcag_aa at haa
          simp at haa
          by_cases h2 : contrastRatioRGB rgb (255, 255, 255) < 2
          · left
            simp [h2]
          · right
            norm_num at haa
            simp [h2, haa]

/-- C10: every finding `ContrastRule.analyze` emits whose metadata marks
the run as large text has severity CRITICAL or HIGH, never MEDIUM: for
large text the AA threshold is 3.0, so a failing run has ratio below 3.0
and the MEDIUM branch (ratio at least 3.0) is unreachable. -/
theorem contrast_large_text_severity (p : Pres) (f : Finding)
    (hf : f ∈ contrast_analyze p) (hl : f.meta_is_large_text = some true) :
    f.severity = Severity.critical ∨ f.severity = Severity.high := by
  unfold contrast_analyze at hf
  rw [List.mem_flatMap] at hf
  obtain ⟨pr, _, hf⟩ := hf
  rw [List.mem_flatMap] at hf
  obtain ⟨shape, _, hf⟩ := hf
  unfold contrastShapeFindings at hf
  cases htf : shape.text_frame with
  | none => rw [htf] at hf; simp at hf
  | some tf =>
    rw [htf] at hf
    simp only [] at hf
    rw [List.mem_flatMap] at hf
    obtain ⟨run, _, hf⟩ := hf
    exact contrastRunFindings_large _ _ run f hf hl

/-- An 18pt white-on-white run: large text with contrast ratio 1. -/
def largeRun : Run :=
  { text := "Sample", font_name := "Arial", font_size := some 18, bold := none,
    italic := none, underline := none, font_color := some "#ffffff" }

def largeShape : ShapeInfo :=
  { shape_index := 0, shape_id := 7, shape_name := "TextBox 1", text := "Sample",
    is_title := false, is_placeholder := false,
    text_frame := some { paragraph_count := 1, runs := [largeRun] } }

def largeSlide : Slide :=
  { title := some "Title", layout_name := "Title and Content",
    text_shapes := [largeShape] }

def largePres : Pres := { slides := [largeSlide], core_title := some "Deck" }

def largeFinding : Finding :=
  { rule_id := "rule_03", slide_number := 1, shape_id := some "7",
    severity := Severity.critical, action_type := ActionType.auto_fix,
    meta_is_large_text := some true }

/-- Evaluating the contrast rule on the one-slide white-on-white deck. -/
theorem contrast_analyze_largePres : contrast_analyze largePres = [largeFinding] := by
  have h1 : contrast_analyze largePres
      = ((contrastRunFindings 1 7 largeRun ++ []) ++ []) ++ [] := rfl
  rw [h1]
  simp only [List.append_nil]
  unfold contrastRunFindings
  rw [show largeRun.font_color = some "#ffffff" from rfl]
  simp only []
  rw [if_neg (by decide : ¬("#ffffff" = ""))]
  rw [show hex_to_rgb "#ffffff" = some (255, 255, 255) from by decide]
  simp only []
  rw [contrastRatioRGB_self]
  have hnaa : ¬ meets_wcag_aa (1 : ℝ) (isLargeText largeRun) := by
    rw [show isLargeText largeRun = true from by decide]
    unfold meets_wcag_aa
    simp
    norm_num
  rw [if_neg hnaa]
  rw [if_pos (by norm_num : (1 : ℝ) < 2)]
  rw [show isLargeText largeRun = true from by decide]
  decide

/-- C10 witness: the white-on-white 18pt run yields exactly one finding,
marked large-text, and its severity is CRITICAL (in particular CRITICAL or
HIGH). -/
theorem contrast_large_text_severity_wit :
    largeFinding ∈ contrast_analyze largePres ∧
    largeFinding.meta_is_large_text = some true ∧
    (largeFinding.severity = Severity.critical ∨
      largeFinding.severity = Severity.high) := by
  have hmem : largeFinding ∈ contrast_analyze largePres := by
    rw [contrast_analyze_largePres]
    exact List.mem_singleton_self _
  exact ⟨hmem, rfl, contrast_large_text_severity largePres largeFinding hmem rfl⟩

/-- The behaviour of one registered rule's `analyze` as the orchestrator
sees it: a findings list, or a raised exception (`Except.error`), per
`core/analyzer.py` lines 61-70. -/
abbrev RuleFun := Pres → Except Unit (List Finding)

/-- The `self.available_rules` registry built by
`AccessibilityAnalyzer.__init__` (`core/analyzer.py` lines 17-23): the
three shipped rules, keyed by id, in insertion order; none of their
`analyze` implementations raises in this model. -/
noncomputable def availableRules : List (String × RuleFun) :=
  [("rule_01", fun p => Except.ok (structure_analyze p)),
   ("rule_03", fun p => Except.ok (contrast_analyze p)),
   ("rule_04", fun p => Except.ok (fonts_analyze p))]

/-- Python dict lookup over an insertion-ordered association list. -/
def lookupDict {α : Type _} : List (String × α) → String → Option α
  | [], _ => none
  | (k, v) :: rest, key => if key = k then some v else lookupDict rest key

/-- Python dict assignment `d[k] = v`: update in place if present, else
append. -/
def dictInsert {α : Type _} : List (String × α) → String → α → List (String × α)
  | [], k, v => [(k, v)]
  | (k2, v2) :: rest, k, v =>
    if k = k2 then (k2, v) :: rest else (k2, v2) :: dictInsert rest k v

/-- The rule loop of `AccessibilityAnalyzer.analyze_presentation`
(`core/analyzer.py` lines 53-70): unknown ids are skipped with a warning;
a successful rule appends its findings to `all_findings` and records them
in `rule_results`; a raising rule records the empty list and the loop
continues (`except Exception` lines 67-70). -/
def runRulesLoop (reg : List (String × RuleFun)) (p : Pres) :
    List String → List Finding → List (String × List Finding) →
    List Finding × List (String × List Finding)
  | [], acc, rr => (acc, rr)
  | rid :: rest, acc, rr =>
    match lookupDict reg rid with
    | none => runRulesLoop reg p rest acc rr
    | some rule =>
      match rule p with
      | Except.ok fs => runRulesLoop reg p rest (acc ++ fs) (dictInsert rr rid fs)
      | Except.error _ => runRulesLoop reg p rest acc (dictInsert rr rid [])

/-- The five fixed severity buckets of `_group_by_severity` and
`_calculate_scores`. -/
structure SeverityCounts where
  critical : ℕ
  high : ℕ
  medium : ℕ
  low : ℕ
  info : ℕ
deriving DecidableEq

def severityCountsOf (fs : List Finding) : SeverityCounts :=
  { critical := fs.countP (fun f => decide (f.severity = Severity.critical)),
    high := fs.countP (fun f => decide (f.severity = Severity.high)),
    medium := fs.countP (fun f => decide (f.severity = Severity.medium)),
    low := fs.countP (fun f => decide (f.severity = Severity.low)),
    info := fs.countP (fun f => decide (f.severity = Severity.info)) }

/-- The `scores` dict of `AccessibilityAnalyzer._calculate_scores`
(`core/analyzer.py` lines 97-151).  The zero-slide branch returns only
`overall_score` and `grade`; the `Option` fields model the keys that are
absent from that dict. -/
structure Scores where
  overall_score : ℚ
  grade : String
  severity_counts : Option SeverityCounts
  total_issues : Option ℕ
  issues_per_slide : Option ℚ
deriving DecidableEq

/-- The grade ladder of `_calculate_scores` (`core/analyzer.py` lines
134-143), applied to the unrounded overall score. -/
def gradeOf (s : ℚ) : String :=
  if s ≥ 90 then "A"
  else if s ≥ 75 then "B"
  else if s ≥ 60 then "C"
  else if s ≥ 40 then "D"
  else "F"

/-- `AccessibilityAnalyzer._calculate_scores` (`core/analyzer.py` lines
97-151): `{"overall_score": 100, "grade": "A"}` for a zero-slide deck,
otherwise severity-weighted penalty (10/5/2/1/0.5) normalized by slide
count, `overall = max(0, 100 - penalty_per_slide)`, rounded to one decimal
for reporting, with the grade from the unrounded value. -/
def calculate_scores (findings : List Finding) (slide_count : ℕ) : Scores :=
  if slide_count = 0 then
    { overall_score := 100, grade := "A", severity_counts := none,
      total_issues := none, issues_per_slide := none }
  else
    let sc := severityCountsOf findings
    let penalty : ℚ := sc.critical * 10 + sc.high * 5 + sc.medium * 2
      + sc.low * 1 + sc.info * 0.5
    let overall : ℚ := max 0 (100 - penalty / slide_count)
    { overall_score := pyRound1 overall, grade := gradeOf overall,
      severity_counts := some sc, total_issues := some findings.length,
      issues_per_slide := some (pyRound2 ((findings.length : ℚ) / (slide_count : ℚ))) }

/-- One step of `_group_by_slide` (`core/analyzer.py` lines 163-169):
`slide_counts[n] = slide_counts.get(n, 0) + 1`. -/
def bumpSlide : List (ℕ × ℕ) → ℕ → List (ℕ × ℕ)
  | [], k => [(k, 1)]
  | (k2, v) :: rest, k =>
    if k = k2 then (k2, v + 1) :: rest else (k2, v) :: bumpSlide rest k

def groupBySlide (fs : List Finding) : List (ℕ × ℕ) :=
  fs.foldl (fun acc f => bumpSlide acc f.slide_number) []

/-- `get_presentation_metadata()["title"]` (`pptx_access/reader.py` line
188): `core_properties.title or "Untitled"`. -/
def presentationTitle (p : Pres) : String :=
  match p.core_title with
  | none => "Untitled"
  | some t => if t = "" then "Untitled" else t

/-- The dict returned by `analyze_presentation` (`core/analyzer.py` lines
81-95), with the `metadata` sub-dict flattened into the `slide_count`,
`rules_run` and `presentation_title` fields. -/
structure AnalysisResult where
  total_findings : ℕ
  findings : List Finding
  findings_by_severity : SeverityCounts
  findings_by_slide : List (ℕ × ℕ)
  rule_results : List (String × ℕ)
  scores : Scores
  slide_count : ℕ
  rules_run : List String
  presentation_title : String

/-- `AccessibilityAnalyzer.analyze_presentation` (`core/analyzer.py` lines
25-95), parametrized by the registry `self.available_rules`; passing
`none` for `enabled_rules` models the Python default `None` (all
registered rules).  The unused free-form `context` mapping (no shipped
rule reads it) is elided.  The function is total: no exception from a
rule's `analyze` propagates. -/
def analyze_presentation (reg : List (String × RuleFun)) (p : Pres)
    (enabled_rules : Option (List String)) : AnalysisResult :=
  let enabled := enabled_rules.getD (reg.map (fun kv => kv.1))
  let res := runRulesLoop reg p enabled [] []
  { total_findings := res.1.length,
    findings := res.1,
    findings_by_severity := severityCountsOf res.1,
    findings_by_slide := groupBySlide res.1,
    rule_results := res.2.map (fun kv => (kv.1, kv.2.length)),
    scores := calculate_scores res.1 p.slides.length,
    slide_count := p.slides.length,
    rules_run := enabled,
    presentation_title := presentationTitle p }

theorem lookupDict_dictInsert_self {α : Type _} (l : List (String × α)) (k : String)
    (v : α) : lookupDict (dictInsert l k v) k = some v := by
  induction l with
  | nil => simp [dictInsert, lookupDict]
  | cons kv rest ih =>
    obtain ⟨k2, v2⟩ := kv
    by_cases h : k = k2
    · simp [dictInsert, h, lookupDict]
    · simp [dictInsert, h, lookupDict, ih]

theorem lookupDict_dictInsert_ne {α : Type _} (l : List (String × α)) (k key : String)
    (v : α) (h : key ≠ k) :
    lookupDict (dictInsert l k v) key = lookupDict l key := by
  induction l with
  | nil => simp [dictInsert, lookupDict, h]
  | cons kv rest ih =>
    obtain ⟨k2, v2⟩ := kv
    by_cases h2 : k = k2
    · subst h2
      simp [dictInsert, lookupDict, h]
    · by_cases h3 : key = k2 <;> simp [dictInsert, h2, lookupDict, h3, ih]

theorem lookupDict_map_length (l : List (String × List Finding)) (key : String) :
    lookupDict (l.map (fun kv => (kv.1, kv.2.length))) key
      = (lookupDict l key).map List.length := by
  induction l with
  | nil => simp [lookupDict]
  | cons kv rest ih =>
    obtain ⟨k2, v2⟩ := kv
    by_cases h : key = k2 <;> simp [lookupDict, h, ih]

theorem runRulesLoop_cons (reg : List (String × RuleFun)) (p : Pres) (rid : String)
    (rest : List String) (acc : List Finding) (rr : List (String × List Finding)) :
    runRulesLoop reg p (rid :: rest) acc rr =
      match lookupDict reg rid with
      | none => runRulesLoop reg p rest acc rr
      | some rule =>
        match rule p with
        | Except.ok fs => runRulesLoop reg p rest (acc ++ fs) (dictInsert rr rid fs)
        | Except.error _ => runRulesLoop reg p rest acc (dictInsert rr rid []) := rfl

theorem runRulesLoop_cons_none {reg : List (String × RuleFun)} {p : Pres} {rid : String}
    (rest : List String) (acc : List Finding) (rr : List (String × List Finding))
    (hr : lookupDict reg rid = none) :
    runRulesLoop reg p (rid :: rest) acc rr = runRulesLoop reg p rest acc rr := by
  rw [runRulesLoop_cons, hr]

theorem runRulesLoop_cons_ok {reg : List (String × RuleFun)} {p : Pres} {rid : String}
    {rule : RuleFun} {fs : List Finding}
    (rest : List String) (acc : List Finding) (rr : List (String × List Finding))
    (hr : lookupDict reg rid = some rule) (hok : rule p = Except.ok fs) :
    runRulesLoop reg p (rid :: rest) acc rr
      = runRulesLoop reg p rest (acc ++ fs) (dictInsert rr rid fs) := by
  rw [runRulesLoop_cons, hr]
  show (match rule p with
        | Except.ok fs => runRulesLoop reg p rest (acc ++ fs) (dictInsert rr rid fs)
        | Except.error _ => runRulesLoop reg p rest acc (dictInsert rr rid [])) = _
  rw [hok]

theorem runRulesLoop_cons_err {reg : List (String × RuleFun)} {p : Pres} {rid : String}
    {rule : RuleFun} {u : Unit}
    (rest : List String) (acc : List Finding) (rr : List (String × List Finding))
    (hr : lookupDict reg rid = some rule) (herr : rule p = Except.error u) :
    runRulesLoop reg p (rid :: rest) acc rr
      = runRulesLoop reg p rest acc (dictInsert rr rid []) := by
  rw [runRulesLoop_cons, hr]
  show (match rule p with
        | Except.ok fs => runRulesLoop reg p rest (acc ++ fs) (dictInsert rr rid fs)
        | Except.error _ => runRulesLoop reg p rest acc (dictInsert rr rid [])) = _
  rw [herr]

/-- Findings already accumulated stay in the loop's result. -/
theorem runRulesLoop_acc_mem (reg : List (String × RuleFun)) (p : Pres) :
    ∀ (l : List String) (acc : List Finding) (rr : List (String × List Finding))
      (x : Finding), x ∈ acc → x ∈ (runRulesLoop reg p l acc rr).1 := by
  intro l
  induction l with
  | nil => intro acc rr x hx; exact hx
  | cons rid rest ih =>
    intro acc rr x hx
    cases hr : lookupDict reg rid with
    | none => rw [runRulesLoop_cons_none rest acc rr hr]; exact ih acc rr x hx
    | some rule =>
      cases hrp : rule p with
      | ok fs =>
        rw [runRulesLoop_cons_ok rest acc rr hr hrp]
        exact ih _ _ x (List.mem_append_left _ hx)
      | error u =>
        rw [runRulesLoop_cons_err rest acc rr hr hrp]
        exact ih _ _ x hx

/-- The findings of every enabled registered rule whose `analyze` succeeds
appear in the loop's accumulated findings. -/
theorem runRulesLoop_ok_mem (reg : List (String × RuleFun)) (p : Pres) :
    ∀ (l : List String) (acc : List Finding) (rr : List (String × List Finding))
      (rid2 : String) (rule2 : RuleFun) (fs : List Finding) (x : Finding),
      rid2 ∈ l → lookupDict reg rid2 = some rule2 → rule2 p = Except.ok fs →
      x ∈ fs → x ∈ (runRulesLoop reg p l acc rr).1 := by
  intro l
  induction l with
  | nil =>
    intro acc rr rid2 rule2 fs x hmem _ _ _
    simp at hmem
  | cons rid rest ih =>
    intro acc rr rid2 rule2 fs x hmem hlook hok hx
    by_cases he : rid2 = rid
    · subst he
      rw [runRulesLoop_cons_ok rest acc rr hlook hok]
      exact runRulesLoop_acc_mem reg p rest _ _ x (List.mem_append_right _ hx)
    · have hmem2 : rid2 ∈ rest := by
        cases List.mem_cons.mp hmem with
        | inl h => exact absurd h he
        | inr h => exact h
      cases hr : lookupDict reg rid with
      | none =>
        rw [runRulesLoop_cons_none rest acc rr hr]
        exact ih _ _ rid2 rule2 fs x hmem2 hlook hok hx
      | some rule =>
        cases hrp : rule p with
        | ok fs2 =>
          rw [runRulesLoop_cons_ok rest acc rr hr hrp]
          exact ih _ _ rid2 rule2 fs x hmem2 hlook hok hx
        | error u =>
          rw [runRulesLoop_cons_err rest acc rr hr hrp]
          exact ih _ _ rid2 rule2 fs x hmem2 hlook hok hx

/-- Once the raising rule's entry is the empty list, it stays so. -/
theorem runRulesLoop_keeps_nil (reg : List (String × RuleFun)) (p : Pres)
    (rid : String) (rule : RuleFun) (hlook : lookupDict reg rid = some rule)
    (hraise : rule p = Except.error ()) :
    ∀ (l : List String) (acc : List Finding) (rr : List (String × List Finding)),
      lookupDict rr rid = some ([] : List Finding) →
      lookupDict (runRulesLoop reg p l acc rr).2 rid = some [] := by
  intro l
  induction l with
  | nil => intro acc rr h; exact h
  | cons r rest ih =>
    intro acc rr h
    by_cases he : r = rid
    · subst he
      rw [runRulesLoop_cons_err rest acc rr hlook hraise]
      exact ih _ _ (by rw [lookupDict_dictInsert_self])
    · cases hr : lookupDict reg r with
      | none =>
        rw [runRulesLoop_cons_none rest acc rr hr]
        exact ih _ _ h
      | some rule2 =>
        cases hrp : rule2 p with
        | ok fs =>
          rw [runRulesLoop_cons_ok rest acc rr hr hrp]
          refine ih _ _ ?_
          rw [lookupDict_dictInsert_ne _ _ _ _ (Ne.symm he)]
          exact h
        | error u =>
          rw [runRulesLoop_cons_err rest acc rr hr hrp]
          refine ih _ _ ?_
          rw [lookupDict_dictInsert_ne _ _ _ _ (Ne.symm he)]
          exact h

/-- A raising enabled rule ends with the empty findings list recorded. -/
theorem runRulesLoop_sets_nil (reg : List (String × RuleFun)) (p : Pres)
    (rid : String) (rule : RuleFun) (hlook : lookupDict reg rid = some rule)
    (hraise : rule p = Except.error ()) :
    ∀ (l : List String) (acc : List Finding) (rr : List (String × List Finding)),
      rid ∈ l → lookupDict (runRulesLoop reg p l acc rr).2 rid = some [] := by
  intro l
  induction l with
  | nil => intro _ _ h; simp at h
  | cons r rest ih =>
    intro acc rr hmem
    by_cases he : r = rid
    · subst he
      rw [runRulesLoop_cons_err rest acc rr hlook hraise]
      exact runRulesLoop_keeps_nil reg p r rule hlook hraise rest _ _
        (by rw [lookupDict_dictInsert_self])
    · have hmem2 : rid ∈ rest := by
        cases List.mem_cons.mp hmem with
        | inl h => exact absurd h.symm he
        | inr h => exact h
      cases hr : lookupDict reg r with
      | none =>
        rw [runRulesLoop_cons_none rest acc rr hr]
        exact ih _ _ hmem2
      | some rule2 =>
        cases hrp : rule2 p with
        | ok fs =>
          rw [runRulesLoop_cons_ok rest acc rr hr hrp]
          exact ih _ _ hmem2
        | error u =>
          rw [runRulesLoop_cons_err rest acc rr hr hrp]
          exact ih _ _ hmem2

/-- C3: if an enabled registered rule's `analyze` raises, the orchestrator
records zero findings for it in `rule_results`, continues with the
remaining rules, and the returned result still contains every finding of
every other enabled rule whose `analyze` succeeds.  (`analyze_presentation`
is a total function of this model: no exception from a rule's `analyze`
propagates out of it.) -/
theorem analyzer_isolates_rule_failure
    (reg : List (String × RuleFun)) (p : Pres) (enabled : List String)
    (rid : String) (rule : RuleFun)
    (hlook : lookupDict reg rid = some rule)
    (hmem : rid ∈ enabled)
    (hraise : rule p = Except.error ()) :
    lookupDict (analyze_presentation reg p (some enabled)).rule_results rid = some 0 ∧
    (∀ (rid2 : String) (rule2 : RuleFun) (fs : List Finding),
      rid2 ∈ enabled → lookupDict reg rid2 = some rule2 → rule2 p = Except.ok fs →
      ∀ x ∈ fs, x ∈ (analyze_presentation reg p (some enabled)).findings) := by
  constructor
  · show lookupDict ((runRulesLoop reg p enabled [] []).2.map
        (fun kv => (kv.1, kv.2.length))) rid = some 0
    rw [lookupDict_map_length]
    rw [runRulesLoop_sets_nil reg p rid rule hlook hraise enabled [] [] hmem]
    rfl
  · intro rid2 rule2 fs hmem2 hlook2 hok x hx
    show x ∈ (runRulesLoop reg p enabled [] []).1
    exact runRulesLoop_ok_mem reg p enabled [] [] rid2 rule2 fs x hmem2 hlook2 hok hx

def wGoodFinding : Finding :=
  { rule_id := "rule_good", slide_number := 1, shape_id := none,
    severity := Severity.low, action_type := ActionType.suggest,
    meta_is_large_text := none }

/-- A rule whose `analyze` succeeds with one finding. -/
def wGoodRule : RuleFun := fun _ => Except.ok [wGoodFinding]

/-- A rule whose `analyze` always raises. -/
def wBadRule : RuleFun := fun _ => Except.error ()

def wReg : List (String × RuleFun) := [("good", wGoodRule), ("bad", wBadRule)]

/-- C3 witness: with a registry of one succeeding and one always-raising
rule, both enabled, the raising rule's count is recorded as 0 and the
succeeding rule's finding is in the returned result. -/
theorem analyzer_isolates_rule_failure_wit :
    lookupDict (analyze_presentation wReg emptyPres (some ["good", "bad"])).rule_results
        "bad" = some 0 ∧
    wGoodFinding ∈ (analyze_presentation wReg emptyPres (some ["good", "bad"])).findings := by
  have h := analyzer_isolates_rule_failure wReg emptyPres ["good", "bad"] "bad" wBadRule
    (by rfl) (by simp) (by rfl)
  exact ⟨h.1, h.2 "good" wGoodRule [wGoodFinding] (by simp) (by rfl) (by rfl)
    wGoodFinding (by simp)⟩

/-- Ids not in the registry are never inserted into `rule_results`. -/
theorem runRulesLoop_unknown_none (reg : List (String × RuleFun)) (p : Pres)
    (rid : String) (hnone : lookupDict reg rid = none) :
    ∀ (l : List String) (acc : List Finding) (rr : List (String × List Finding)),
      lookupDict rr rid = none →
      lookupDict (runRulesLoop reg p l acc rr).2 rid = none := by
  intro l
  induction l with
  | nil => intro acc rr h; exact h
  | cons r rest ih =>
    intro acc rr h
    cases hr : lookupDict reg r with
    | none =>
      rw [runRulesLoop_cons_none rest acc rr hr]
      exact ih _ _ h
    | some rule2 =>
      have he : rid ≠ r := by
        intro hh
        rw [hh, hr] at hnone
        cases hnone
      cases hrp : rule2 p with
      | ok fs =>
        rw [runRulesLoop_cons_ok rest acc rr hr hrp]
        refine ih _ _ ?_
        rw [lookupDict_dictInsert_ne _ _ _ _ he]
        exact h
      | error u =>
        rw [runRulesLoop_cons_err rest acc rr hr hrp]
        refine ih _ _ ?_
        rw [lookupDict_dictInsert_ne _ _ _ _ he]
        exact h

/-- C6 counterexample: requesting the unregistered id `"rule_99"` against
the real registry: the id is skipped (it gets no `rule_results` entry) yet
it still appears in the returned metadata list `rules_run`, which is the
requested list verbatim. -/
theorem rules_run_unknown_cex :
    lookupDict availableRules "rule_99" = none ∧
    lookupDict (analyze_presentation availableRules emptyPres
        (some ["rule_99"])).rule_results "rule_99" = none ∧
    "rule_99" ∈ (analyze_presentation availableRules emptyPres
        (some ["rule_99"])).rules_run := by
  refine ⟨rfl, ?_, ?_⟩
  · show lookupDict ((runRulesLoop availableRules emptyPres ["rule_99"] [] []).2.map
        (fun kv => (kv.1, kv.2.length))) "rule_99" = none
    rw [lookupDict_map_length]
    rw [runRulesLoop_unknown_none availableRules emptyPres "rule_99" rfl ["rule_99"] [] [] rfl]
    rfl
  · show "rule_99" ∈ ["rule_99"]
    exact List.mem_singleton_self _

/-- C6 (amended): the metadata field `rules_run` is exactly the requested
`enabled_rules` list (the full registry key list when the request is
omitted), not the list of rules actually executed: an unknown requested id
is skipped for execution — it gets no `rule_results` entry — but still
appears in `rules_run`. -/
theorem rules_run_amended (reg : List (String × RuleFun)) (p : Pres)
    (enabled : List String) (rid : String) (h : lookupDict reg rid = none) :
    (analyze_presentation reg p (some enabled)).rules_run = enabled ∧
    lookupDict (analyze_presentation reg p (some enabled)).rule_results rid = none ∧
    (analyze_presentation reg p none).rules_run = reg.map (fun kv => kv.1) := by
  refine ⟨rfl, ?_, rfl⟩
  show lookupDict ((runRulesLoop reg p enabled [] []).2.map
      (fun kv => (kv.1, kv.2.length))) rid = none
  rw [lookupDict_map_length]
  rw [runRulesLoop_unknown_none reg p rid h enabled [] [] rfl]
  rfl

/-- C6 witness: the amended statement at the registry `availableRules`,
the empty presentation and the unknown id `"rule_99"`. -/
theorem rules_run_amended_wit :
    (analyze_presentation availableRules emptyPres (some ["rule_99"])).rules_run
        = ["rule_99"] ∧
    lookupDict (analyze_presentation availableRules emptyPres
        (some ["rule_99"])).rule_results "rule_99" = none ∧
    (analyze_presentation availableRules emptyPres none).rules_run
        = availableRules.map (fun kv => kv.1) :=
  rules_run_amended availableRules emptyPres ["rule_99"] "rule_99" rfl

/-- The weights 10/5/2/1/0.5 used by `_calculate_scores`
(`core/analyzer.py` lines 121-127). -/
def severity_weight_analyzer : Severity → ℚ
  | .critical => 10
  | .high => 5
  | .medium => 2
  | .low => 1
  | .info => 0.5

/-- The per-severity `count × weight` sum equals the finding-by-finding
weighted sum. -/
theorem penalty_sum_eq (fs : List Finding) :
    ((severityCountsOf fs).critical : ℚ) * 10 + ((severityCountsOf fs).high : ℚ) * 5
      + ((severityCountsOf fs).medium : ℚ) * 2 + ((severityCountsOf fs).low : ℚ) * 1
      + ((severityCountsOf fs).info : ℚ) * 0.5
    = (fs.map (fun f => severity_weight_analyzer f.severity)).sum := by
  induction fs with
  | nil => simp [severityCountsOf]
  | cons f t ih =>
    simp only [severityCountsOf, List.countP_cons, List.map_cons, List.sum_cons] at ih ⊢
    cases hs : f.severity <;>
      (simp [hs, severity_weight_analyzer] at ih ⊢; linarith [ih])

/-- The positive-slide-count branch of `_calculate_scores`, with the
penalty written as the claim writes it. -/
theorem calculate_scores_pos (fs : List Finding) (n : ℕ) (hn : 0 < n) :
    (calculate_scores fs n).overall_score
      = pyRound1 (max 0 (100 -
          ((fs.map (fun f => severity_weight_analyzer f.severity)).sum) / n)) ∧
    (calculate_scores fs n).grade
      = gradeOf (max 0 (100 -
          ((fs.map (fun f => severity_weight_analyzer f.severity)).sum) / n)) := by
  unfold calculate_scores
  rw [if_neg (by omega)]
  constructor
  · show pyRound1 (max 0 (100 - (((severityCountsOf fs).critical : ℚ) * 10
        + ((severityCountsOf fs).high : ℚ) * 5 + ((severityCountsOf fs).medium : ℚ) * 2
        + ((severityCountsOf fs).low : ℚ) * 1 + ((severityCountsOf fs).info : ℚ) * 0.5) / n))
      = pyRound1 (max 0 (100 -
          ((fs.map (fun f => severity_weight_analyzer f.severity)).sum) / n))
    rw [penalty_sum_eq]
  · show gradeOf (max 0 (100 - (((severityCountsOf fs).critical : ℚ) * 10
        + ((severityCountsOf fs).high : ℚ) * 5 + ((severityCountsOf fs).medium : ℚ) * 2
        + ((severityCountsOf fs).low : ℚ) * 1 + ((severityCountsOf fs).info : ℚ) * 0.5) / n))
      = gradeOf (max 0 (100 -
          ((fs.map (fun f => severity_weight_analyzer f.severity)).sum) / n))
    rw [penalty_sum_eq]

def highFinding : Finding :=
  { rule_id := "rule_03", slide_number := 1, shape_id := none,
    severity := Severity.high, action_type := ActionType.suggest,
    meta_is_large_text := none }

/-- The spec's concrete deck: 10 slides, exactly two HIGH findings. -/
theorem calculate_scores_two_high :
    (calculate_scores [highFinding, highFinding] 10).overall_score = 99 ∧
    (calculate_scores [highFinding, highFinding] 10).grade = "A" := by
  have hc : severityCountsOf [highFinding, highFinding]
      = { critical := 0, high := 2, medium := 0, low := 0, info := 0 } := by decide
  have hpen : (((severityCountsOf [highFinding, highFinding]).critical : ℚ) * 10
      + ((severityCountsOf [highFinding, highFinding]).high : ℚ) * 5
      + ((severityCountsOf [highFinding, highFinding]).medium : ℚ) * 2
      + ((severityCountsOf [highFinding, highFinding]).low : ℚ) * 1
      + ((severityCountsOf [highFinding, highFinding]).info : ℚ) * 0.5) = 10 := by
    rw [hc]
    norm_num
  have hmax : max (0 : ℚ) (100 - (10 : ℚ) / (10 : ℕ)) = 99 := by
    norm_num
  constructor
  · unfold calculate_scores
    rw [if_neg (by norm_num)]
    show pyRound1 (max 0 (100 - (((severityCountsOf [highFinding, highFinding]).critical : ℚ) * 10
        + ((severityCountsOf [highFinding, highFinding]).high : ℚ) * 5
        + ((severityCountsOf [highFinding, highFinding]).medium : ℚ) * 2
        + ((severityCountsOf [highFinding, highFinding]).low : ℚ) * 1
        + ((severityCountsOf [highFinding, highFinding]).info : ℚ) * 0.5) / (10 : ℕ))) = 99
    rw [hpen, hmax]
    norm_num [pyRound1, roundHalfEven]
  · unfold calculate_scores
    rw [if_neg (by norm_num)]
    show gradeOf (max 0 (100 - (((severityCountsOf [highFinding, highFinding]).critical : ℚ) * 10
        + ((severityCountsOf [highFinding, highFinding]).high : ℚ) * 5
        + ((severityCountsOf [highFinding, highFinding]).medium : ℚ) * 2
        + ((severityCountsOf [highFinding, highFinding]).low : ℚ) * 1
        + ((severityCountsOf [highFinding, highFinding]).info : ℚ) * 0.5) / (10 : ℕ))) = "A"
    rw [hpen, hmax]
    unfold gradeOf
    rw [if_pos (by norm_num : (99 : ℚ) ≥ 90)]

/-- C4: orchestrator scoring.  A zero-slide deck scores a degenerate
`{overall_score: 100, grade: "A"}`; otherwise the penalty is the
severity-weighted sum (weights 10/5/2/1/0.5), the reported overall score is
`max(0, 100 - penalty/slide_count)` rounded to one decimal, the grade
ladder is ≥90→A, ≥75→B, ≥60→C, ≥40→D, else F applied to the overall value,
and the spec's concrete deck (10 slides, exactly two HIGH findings) scores
99.0 with grade "A". -/
theorem orchestrator_scoring (findings : List Finding) (n : ℕ) (hn : 0 < n) :
    calculate_scores findings 0 =
      { overall_score := 100, grade := "A", severity_counts := none,
        total_issues := none, issues_per_slide := none } ∧
    (calculate_scores findings n).overall_score
      = pyRound1 (max 0 (100 -
          ((findings.map (fun f => severity_weight_analyzer f.severity)).sum) / n)) ∧
    (calculate_scores findings n).grade
      = gradeOf (max 0 (100 -
          ((findings.map (fun f => severity_weight_analyzer f.severity)).sum) / n)) ∧
    (∀ s : ℚ, 90 ≤ s → gradeOf s = "A") ∧
    (∀ s : ℚ, 75 ≤ s ∧ s < 90 → gradeOf s = "B") ∧
    (∀ s : ℚ, 60 ≤ s ∧ s < 75 → gradeOf s = "C") ∧
    (∀ s : ℚ, 40 ≤ s ∧ s < 60 → gradeOf s = "D") ∧
    (∀ s : ℚ, s < 40 → gradeOf s = "F") ∧
    (calculate_scores [highFinding, highFinding] 10).overall_score = 99 ∧
    (calculate_scores [highFinding, highFinding] 10).grade = "A" := by
  refine ⟨rfl, (calculate_scores_pos findings n hn).1, (calculate_scores_pos findings n hn).2,
    ?_, ?_, ?_, ?_, ?_, calculate_scores_two_high.1, calculate_scores_two_high.2⟩
  · intro s hs
    unfold gradeOf
    rw [if_pos (by linarith)]
  · rintro s ⟨h1, h2⟩
    unfold gradeOf
    rw [if_neg (by linarith), if_pos (by linarith)]
  · rintro s ⟨h1, h2⟩
    unfold gradeOf
    rw [if_neg (by linarith), if_neg (by linarith), if_pos (by linarith)]
  · rintro s ⟨h1, h2⟩
    unfold gradeOf
    rw [if_neg (by linarith), if_neg (by linarith), if_neg (by linarith),
      if_pos (by linarith)]
  · intro s hs
    unfold gradeOf
    rw [if_neg (by linarith), if_neg (by linarith), if_neg (by linarith),
      if_neg (by linarith)]

/-- C4 witness: the scoring formula at the concrete two-HIGH, ten-slide
deck. -/
theorem orchestrator_scoring_wit :
    (calculate_scores [highFinding, highFinding] 10).overall_score
      = pyRound1 (max 0 (100 -
          (([highFinding, highFinding].map
              (fun f => severity_weight_analyzer f.severity)).sum) / (10 : ℕ))) ∧
    (calculate_scores [highFinding, highFinding] 10).overall_score = 99 ∧
    (calculate_scores [highFinding, highFinding] 10).grade = "A" := by
  have h := orchestrator_scoring [highFinding, highFinding] 10 (by norm_num)
  exact ⟨h.2.1, h.2.2.2.2.2.2.2.2.1, h.2.2.2.2.2.2.2.2.2⟩

/-- C7 counterexample: on a zero-slide analysis the scores dict is only
`{"overall_score": 100, "grade": "A"}` — it does not report a total issue
count or an issues-per-slide value. -/
theorem scores_zero_slides_cex :
    (calculate_scores [] 0).total_issues = none ∧
    (calculate_scores [] 0).issues_per_slide = none ∧
    calculate_scores [] 0 =
      { overall_score := 100, grade := "A", severity_counts := none,
        total_issues := none, issues_per_slide := none } := by
  exact ⟨rfl, rfl, rfl⟩

/-- C7 (amended): for every analysis of a presentation with at least one
slide, the scores object reports the total issue count and the
issues-per-slide value rounded to 2 decimals; on a zero-slide presentation
the scores object carries only the degenerate overall score and grade,
reporting neither. -/
theorem scores_reporting_amended (fs : List Finding) (n : ℕ) (hn : 0 < n) :
    (calculate_scores fs n).total_issues = some fs.length ∧
    (calculate_scores fs n).issues_per_slide
      = some (pyRound2 ((fs.length : ℚ) / (n : ℚ))) := by
  unfold calculate_scores
  rw [if_neg (by omega)]
  exact ⟨rfl, rfl⟩

/-- C7 witness: one empty slide deck of one slide. -/
theorem scores_reporting_amended_wit :
    (calculate_scores [] 1).total_issues = some ([] : List Finding).length ∧
    (calculate_scores [] 1).issues_per_slide
      = some (pyRound2 ((([] : List Finding).length : ℚ) / ((1 : ℕ) : ℚ))) :=
  scores_reporting_amended [] 1 (by norm_num)
